import Mathlib

/-!
Shallow embedding of the webhook decision pipeline of the merchant backend
(services/listenerVerification.ts, services/blockchainVerification.ts,
services/proofGenerator.ts, services/duplicateTracker.ts,
services/confirmationMonitor.ts and the webhook controller), together with
theorems settling the specification claims about it.

Conventions: JS numbers holding timestamps (milliseconds) are `Int`;
uint256 chain values are `Nat`; JS `undefined`-able values are `Option`;
thrown errors are `Except.error`.
-/

namespace MerchantBackend

/-- Boolean substring test, modelling JS `String.prototype.includes`. -/
def strIncludes (s sub : String) : Bool := decide (sub.data <:+: s.data)

/-! ### Retrying ledger client — `retryWithBackoff` (listenerVerification.ts lines 34-70) -/

/-- A JS error as inspected by `retryWithBackoff`: `error.code` and
`error.message`, either of which may be `undefined`. -/
structure RpcError where
  code : Option String
  message : Option String
deriving DecidableEq, Repr

/-- Transient-failure classification from listenerVerification.ts lines 48-52:
`error.code === 'TIMEOUT' || 'ETIMEDOUT' || 'NETWORK_ERROR' ||
error.message?.includes('timeout') || error.message?.includes('network')`. -/
def isTimeoutError (e : RpcError) : Bool :=
  e.code == some "TIMEOUT" || e.code == some "ETIMEDOUT" || e.code == some "NETWORK_ERROR" ||
    (match e.message with
     | some m => strIncludes m "timeout" || strIncludes m "network"
     | none => false)

/-- Sleep computed after the failure of attempt number `attempt`
(line 55): `Math.min(baseDelay * Math.pow(2, attempt - 1), 5000)` with
`baseDelay = 1000`. -/
def backoffDelay (attempt : Nat) : Nat := min (1000 * 2 ^ (attempt - 1)) 5000

instance {ε α : Type} [DecidableEq ε] [DecidableEq α] : DecidableEq (Except ε α) := fun a b =>
  match a, b with
  | Except.ok x, Except.ok y => decidable_of_iff (x = y) (by simp)
  | Except.error x, Except.error y => decidable_of_iff (x = y) (by simp)
  | Except.ok _, Except.error _ => isFalse (by simp)
  | Except.error _, Except.ok _ => isFalse (by simp)

/-- Observable outcome of a run of the retry loop: the value returned or the
error finally thrown, how many attempts were executed, and the sleeps taken
(`delays.get? i` is the sleep before attempt `i + 2`). -/
structure RetryTrace (α : Type) where
  result : Except RpcError α
  attemptsMade : Nat
  delays : List Nat
deriving DecidableEq, Repr

/-- The `for (let attempt = 1; attempt <= maxRetries; attempt++)` loop of
`retryWithBackoff`, with `fn n` the outcome of the n-th call of the wrapped
operation. `remaining` counts the attempts still allowed including the current
one, so `0 < remaining` after the pattern match is the source's
`attempt < maxRetries`. The `remaining = 0` base case is the source's loop
body never running (`maxRetries = 0`), which throws the still-undefined
`lastError`, modelled as the empty error. -/
def retryLoop {α : Type} (fn : Nat → Except RpcError α) (attempt : Nat) :
    Nat → RetryTrace α
  | 0 => ⟨Except.error ⟨none, none⟩, attempt - 1, []⟩
  | remaining + 1 =>
    match fn attempt with
    | Except.ok v => ⟨Except.ok v, attempt, []⟩
    | Except.error e =>
      if 0 < remaining && isTimeoutError e then
        let rest := retryLoop fn (attempt + 1) remaining
        ⟨rest.result, rest.attemptsMade, backoffDelay attempt :: rest.delays⟩
      else
        ⟨Except.error e, attempt, []⟩

/-- `retryWithBackoff(fn, operation, maxRetries)` of listenerVerification.ts. -/
def retryWithBackoff {α : Type} (fn : Nat → Except RpcError α) (maxRetries : Nat) :
    RetryTrace α :=
  retryLoop fn 1 maxRetries

/-! ### Listener registry check — `verifyListenerRegistered`
(listenerVerification.ts lines 131-242) -/

/-- The fields of the registry's `getListener` tuple that the check reads:
`stake = result[1]`, `reputation = result[7]`, `active = result[8]`,
`slashed = result[9]` (stake in wei). -/
structure ListenerRecord where
  stake : Nat
  reputation : Nat
  active : Bool
  slashed : Bool
deriving DecidableEq, Repr

/-- `VERIFICATION_THRESHOLDS` of config/contracts.ts, with the stake minimum
already converted by `ethers.parseEther` to wei. -/
structure VerificationThresholds where
  minListenerStakeWei : Nat
  minListenerReputation : Nat
deriving DecidableEq, Repr

/-- Defaults from config/contracts.ts: `minListenerStake = '0.01'` ETH
(`10 ^ 16` wei), `minListenerReputation = 30`. -/
def defaultThresholds : VerificationThresholds := ⟨10 ^ 16, 30⟩

/-- The `listenerInfo` object of a passing or degraded registry result; the
source attaches `degraded: true` only on the degraded-mode path. -/
structure ListenerInfoOut where
  address : String
  degraded : Bool
deriving DecidableEq, Repr

/-- Return shape of `verifyListenerRegistered`. -/
structure RegistryCheck where
  isValid : Bool
  reason : Option String
  listenerInfo : Option ListenerInfoOut
deriving DecidableEq, Repr

/-- `verifyListenerRegistered(listenerAddress)`: runs `getListener` through
`retryWithBackoff` (3 attempts); on success applies, in order, the
active / slashed / stake / reputation checks; on a raised error either fails
open (`ALLOW_DURING_RPC_FAILURE === 'true'`, result flagged degraded) or
fails closed. Interpolated reason strings carry raw wei instead of the
source's `formatEther` rendering. -/
def verifyListenerRegistered (th : VerificationThresholds)
    (allowDuringRpcFailure : Bool) (listenerAddress : String)
    (fn : Nat → Except RpcError ListenerRecord) : RegistryCheck :=
  match (retryWithBackoff fn 3).result with
  | Except.ok r =>
    if !r.active then ⟨false, some "Listener is not active", none⟩
    else if r.slashed then ⟨false, some "Listener has been slashed (banned)", none⟩
    else if r.stake < th.minListenerStakeWei then
      ⟨false, some ("Listener stake too low: " ++ toString r.stake ++
        " wei (minimum: " ++ toString th.minListenerStakeWei ++ " wei)"), none⟩
    else if r.reputation < th.minListenerReputation then
      ⟨false, some ("Listener reputation too low: " ++ toString r.reputation ++
        " (minimum: " ++ toString th.minListenerReputation ++ ")"), none⟩
    else ⟨true, none, some ⟨listenerAddress, false⟩⟩
  | Except.error e =>
    if allowDuringRpcFailure then
      ⟨true, some "Verification skipped due to RPC failure (degraded mode)",
        some ⟨listenerAddress, true⟩⟩
    else
      ⟨false, some ("Blockchain query failed after 3 retries: " ++
        e.message.getD "Unknown error"), none⟩

/-- A `process.env.X === 'true'` toggle read. -/
def envFlag (env : String → Option String) (key : String) : Bool :=
  env key == some "true"

/-- The environment with no variable set: every toggle is at its default. -/
def emptyEnv : String → Option String := fun _ => none

/-! ### Payment verifier — `verifyPaymentOnChain`
(blockchainVerification.ts lines 25-139) -/

/-- An on-chain payment record as the PaymentDatabase contract would return
it (the fields the disabled comparison code would have inspected). -/
structure PaymentRecord where
  merchant : String
  customer : String
  amount : Nat
  status : Nat
deriving DecidableEq, Repr

/-- Return shape of `verifyPaymentOnChain`. -/
structure PaymentVerification where
  isValid : Bool
  reason : Option String
deriving DecidableEq, Repr

/-- `verifyPaymentOnChain(paymentId, merchant, customer, amount)`. With
`SKIP_PAYMENT_VERIFICATION === 'true'` it accepts unconditionally. With the
toggle off it returns the fixed failure below: the entire PaymentDatabase
query and field comparison is commented out in the source
("DISABLED - PaymentDatabase removed from architecture"), so the `ledger`
is never consulted. -/
def verifyPaymentOnChain (skipVerification : Bool)
    (ledger : String → Option PaymentRecord)
    (paymentId merchant customer amount : String) : PaymentVerification :=
  if skipVerification then ⟨true, none⟩
  else
    ⟨false, some ("Payment verification enabled but PaymentDatabase not available. " ++
      "Set SKIP_PAYMENT_VERIFICATION=true for testnet.")⟩

/-! ### Proof generator — `validateProofParams`, `generateMerchantProof`
(proofGenerator.ts lines 26-76 and 161-187) -/

/-- Arguments of `generateMerchantProof` that `validateProofParams` and the
simple signing path inspect (`timestamp` in milliseconds). -/
structure ProofParams where
  payment_id : String
  listener_address : String
  timestamp : Int
deriving DecidableEq, Repr

/-- Return shape of `generateMerchantProof`. -/
structure MerchantProof where
  message : String
  signature : String
  timestamp : Int
  method : String
deriving DecidableEq, Repr

/-- `validateProofParams(params)` (proofGenerator.ts lines 161-187), returning
`some errorMessage` where the source throws. `isAddress` stands for
`ethers.isAddress`; `now` is `Date.now()`; the expiry window is
`VERIFICATION_THRESHOLDS.proofExpirySeconds * 1000` ms. JS falsiness of a
missing/empty string is the `= ""` tests, and `!timestamp || timestamp <= 0`
collapses to `timestamp ≤ 0` over integers. -/
def validateProofParams (isAddress : String → Bool) (proofExpirySeconds : Nat)
    (now : Int) (p : ProofParams) : Option String :=
  if p.payment_id = "" then some "payment_id is required"
  else if p.listener_address = "" || !isAddress p.listener_address then
    some "Valid listener_address is required"
  else if p.timestamp ≤ 0 then some "Valid timestamp is required"
  else if now - p.timestamp > (proofExpirySeconds : Int) * 1000 then
    some ("Timestamp too old: " ++ toString ((now - p.timestamp) / 1000) ++
      "s (max: " ++ toString proofExpirySeconds ++ "s)")
  else if p.timestamp > now + 60000 then some "Timestamp is in the future"
  else none

/-- `generateMerchantProof(params)` (proofGenerator.ts lines 26-76): validate,
build the message hash (`mkMsg` stands for `solidityPackedKeccak256` over
`(payment_id, listener_address)`), sign it with the merchant wallet
(`sign` stands for `wallet.signMessage`), and return the simple-method proof. -/
def generateMerchantProof (isAddress : String → Bool) (proofExpirySeconds : Nat)
    (now : Int) (mkMsg : String → String → String) (sign : String → String)
    (p : ProofParams) : Except String MerchantProof :=
  match validateProofParams isAddress proofExpirySeconds now p with
  | some e => Except.error e
  | none =>
    let message := mkMsg p.payment_id p.listener_address
    Except.ok ⟨message, sign message, p.timestamp, "simple"⟩

/-! ### Duplicate tracker (duplicateTracker.ts) -/

/-- A value of the `processedWebhooks` map. -/
structure DupEntry where
  listener : String
  timestamp : Int
  signature : String
deriving DecidableEq, Repr

/-- The `processedWebhooks: Map<string, ...>` keyed by payment id; the head
of the list shadows older entries, matching `Map.set` overwrite semantics
under `List.lookup`. -/
abbrev TrackerState := List (String × DupEntry)

/-- `isWebhookProcessed(paymentId)` (duplicateTracker.ts lines 22-24). -/
def isWebhookProcessed (t : TrackerState) (paymentId : String) : Bool :=
  (t.lookup paymentId).isSome

/-- `getProcessingListener(paymentId)` (duplicateTracker.ts lines 44-50). -/
def getProcessingListener (t : TrackerState) (paymentId : String) : Option DupEntry :=
  t.lookup paymentId

/-- `markWebhookProcessed(paymentId, listenerAddress, signature)`
(duplicateTracker.ts lines 29-39), recording `Date.now()` as `now`. -/
def markWebhookProcessed (t : TrackerState)
    (paymentId listenerAddress signature : String) (now : Int) : TrackerState :=
  (paymentId, ⟨listenerAddress, now, signature⟩) :: t

/-! ### Confirmation monitor (confirmationMonitor.ts) -/

/-- The order-store fields the monitor reads and writes. -/
structure OrderRec where
  status : String
  confirmations : Nat
  confirmedAt : Option Int
deriving DecidableEq, Repr

/-- Shared state the monitor touches: the `monitoringJobs` map (a JS `Map`
keyed by orderId, so keys are unique — a `Finset`; the interval handles
carry no observable data) and the order store the polls update. -/
structure MonitorState where
  jobs : Finset String
  orders : String → OrderRec

/-- `startConfirmationMonitoring(orderId, ...)` (confirmationMonitor.ts lines
226-292): `if (monitoringJobs.has(orderId)) return;` then register the
interval under the key. -/
def startConfirmationMonitoring (s : MonitorState) (orderId : String) : MonitorState :=
  if orderId ∈ s.jobs then s else { s with jobs := insert orderId s.jobs }

/-- `stopConfirmationMonitoring(orderId)` (confirmationMonitor.ts lines
294-301): clear and deregister the interval if one exists, otherwise do
nothing. -/
def stopConfirmationMonitoring (s : MonitorState) (orderId : String) : MonitorState :=
  if orderId ∈ s.jobs then { s with jobs := s.jobs.erase orderId } else s

/-- One successful tick of the `setInterval` body (confirmationMonitor.ts
lines 239-289) for an active job: persist the fetched `confirmations`; when
they reach `required` (`REQUIRED_CONFIRMATIONS`, default 12), set the order
to `PAYMENT_CONFIRMED` with `confirmedAt = now` and stop the job. A tick can
only fire while the job's interval is registered. -/
def pollTick (required : Nat) (now : Int) (s : MonitorState) (orderId : String)
    (confirmations : Nat) : MonitorState :=
  if orderId ∈ s.jobs then
    let s1 : MonitorState :=
      { s with orders := fun k =>
          if k = orderId then { s.orders orderId with confirmations := confirmations }
          else s.orders k }
    if required ≤ confirmations then
      let s2 : MonitorState :=
        { s1 with orders := fun k =>
            if k = orderId then
              { s1.orders k with status := "PAYMENT_CONFIRMED", confirmedAt := some now }
            else s1.orders k }
      stopConfirmationMonitoring s2 orderId
    else s1
  else s

/-! ### Webhook orchestrator — `handleWebhook` (webhook controller) -/

/-- The schema-validated webhook body (`webhookSchema.parse` output). -/
structure WebhookClaim where
  type : String
  payment_id : String
  merchant : String
  customer : String
  amount : String
  timestamp : Int
  block_number : Nat
  transaction_hash : String
  chain_id : Nat
deriving DecidableEq, Repr

/-- The response fields the handler's JSON bodies populate; a field is `none`
when the corresponding key is absent or `null` in that body. -/
structure WebhookResponse where
  statusCode : Nat
  status : Option String
  error : Option String
  message : Option String
  processed_by : Option String
  signature : Option String
  proof : Option MerchantProof
deriving DecidableEq, Repr

/-- A handler run's observable outcome: the HTTP response and the duplicate
tracker state after the run. -/
structure HandlerResult where
  response : WebhookResponse
  tracker : TrackerState
deriving DecidableEq, Repr

/-- The collaborators and configuration a handler run closes over:
the signature-verification outcome for this payload, the registry query's
attempt outcomes, thresholds and toggles, the (never-consulted) payment
ledger, `ethers.isAddress`, the hashing and signing primitives, the proof
expiry window, and the current clock. -/
structure HandlerEnv where
  sigValid : Bool
  regFn : Nat → Except RpcError ListenerRecord
  thresholds : VerificationThresholds
  allowDuringRpcFailure : Bool
  skipPaymentVerification : Bool
  ledger : String → Option PaymentRecord
  isAddress : String → Bool
  mkMsg : String → String → String
  sign : String → String
  proofExpirySeconds : Nat
  now : Int

/-- JS truthiness of an optional header string (`undefined` and `""` are
falsy). -/
def optTruthy (o : Option String) : Bool := o.getD "" != ""

/-- Steps 7-9 of the handler: if a listener address was supplied, attempt
proof generation (a thrown error is caught: no proof, request not failed),
then `markWebhookProcessed(payment_id, listenerAddress,
merchantProof?.signature || '')`; assemble the 200 success body whose
top-level `signature` and `proof` are null when no proof exists. With no
listener address, no proof is generated and the tracker is not touched. -/
def webhookProofStep (env : HandlerEnv) (claim : WebhookClaim)
    (listenerAddress : Option String) (tracker : TrackerState) : HandlerResult :=
  if optTruthy listenerAddress then
    let a := listenerAddress.getD ""
    let proofR := generateMerchantProof env.isAddress env.proofExpirySeconds env.now
      env.mkMsg env.sign ⟨claim.payment_id, a, env.now⟩
    let merchantProof : Option MerchantProof := proofR.toOption
    let tracker1 := markWebhookProcessed tracker claim.payment_id a
      ((merchantProof.map MerchantProof.signature).getD "") env.now
    ⟨⟨200, some "success", none, some "Payment processed successfully", none,
      merchantProof.map MerchantProof.signature, merchantProof⟩, tracker1⟩
  else
    ⟨⟨200, some "success", none, some "Payment processed successfully", none,
      none, none⟩, tracker⟩

/-- Step 5 onward: `verifyPaymentOnChain`; a failure is a terminal 400. The
transaction-receipt check and the order/database/email/websocket updates that
follow are advisory or caught (they alter neither control flow nor the
tracker) and contribute no observable field modelled here. -/
def webhookPaymentStep (env : HandlerEnv) (claim : WebhookClaim)
    (listenerAddress : Option String) (tracker : TrackerState) : HandlerResult :=
  let pv := verifyPaymentOnChain env.skipPaymentVerification env.ledger
    claim.payment_id claim.merchant claim.customer claim.amount
  if !pv.isValid then
    ⟨⟨400, none, some "Invalid payment", pv.reason, none, none, none⟩, tracker⟩
  else
    webhookProofStep env claim listenerAddress tracker

/-- `handleWebhook(req, res)` after schema validation: duplicate
short-circuit, signature check (only when both header values are truthy),
registry check (only when the address is truthy; a failure is a terminal
403), then the payment and proof steps. -/
def handleWebhook (env : HandlerEnv) (claim : WebhookClaim)
    (listenerSignature listenerAddress : Option String)
    (tracker : TrackerState) : HandlerResult :=
  if isWebhookProcessed tracker claim.payment_id then
    let existing := getProcessingListener tracker claim.payment_id
    ⟨⟨200, some "already_processed", none, some "This payment was already handled",
      existing.map DupEntry.listener, none, none⟩, tracker⟩
  else if optTruthy listenerSignature && optTruthy listenerAddress && !env.sigValid then
    ⟨⟨401, none, some "Invalid signature", some "Webhook signature verification failed",
      none, none, none⟩, tracker⟩
  else if optTruthy listenerAddress then
    let rc := verifyListenerRegistered env.thresholds env.allowDuringRpcFailure
      (listenerAddress.getD "") env.regFn
    if !rc.isValid then
      ⟨⟨403, none, some "Unauthorized listener",
        some (rc.reason.getD "Listener not registered or not authorized"),
        none, none, none⟩, tracker⟩
    else webhookPaymentStep env claim listenerAddress tracker
  else webhookPaymentStep env claim listenerAddress tracker

/-- A JS exception as the handler's catch block sees it. -/
structure JsError where
  message : Option String
  stack : Option String
deriving DecidableEq, Repr

/-- The handler's catch block (controller lines 385-398): any exception is
answered with status 500 and the body
`{error: 'Internal server error', message: error.message ?? 'Unknown error'}`. -/
def webhookCatchResponse (e : JsError) : WebhookResponse :=
  ⟨500, none, some "Internal server error", some (e.message.getD "Unknown error"),
    none, none, none⟩

/-! ### Concrete inputs used by claim witnesses and counterexamples -/

/-- A ledger holding a completed (`status = 1`) payment record for every id,
whose merchant/customer fields match the claim inputs used with it. -/
def c1Ledger : String → Option PaymentRecord := fun _ => some ⟨"0xm", "0xc", 1, 1⟩

/-- Attempt outcomes that always fail transiently (code `TIMEOUT`). -/
def c2FailFn : Nat → Except RpcError Nat :=
  fun n => Except.error ⟨some "TIMEOUT", some ("attempt " ++ toString n)⟩

/-- Attempt outcomes failing with a non-transient contract error. -/
def c2NonTransientFn : Nat → Except RpcError Nat :=
  fun _ => Except.error ⟨some "CALL_EXCEPTION", some "execution reverted"⟩

/-- Attempt outcomes failing transiently twice, then succeeding with 42. -/
def c2ThirdOkFn : Nat → Except RpcError Nat :=
  fun n => if n < 3 then Except.error ⟨some "ETIMEDOUT", none⟩ else Except.ok 42

/-- Monitor scenario: empty job registry over a pending order store. -/
def c5Init : MonitorState := ⟨∅, fun _ => ⟨"PAYMENT_PENDING", 0, none⟩⟩

/-- Scenario state after starting monitoring for order `o1`. -/
def c5s0 : MonitorState := startConfirmationMonitoring c5Init "o1"

/-- Scenario state after the first poll (11 confirmations, threshold 12). -/
def c5s1 : MonitorState := pollTick 12 100 c5s0 "o1" 11

/-- Scenario state after the second poll (11 confirmations). -/
def c5s2 : MonitorState := pollTick 12 200 c5s1 "o1" 11

/-- Scenario state after the third poll (12 confirmations: threshold met). -/
def c5s3 : MonitorState := pollTick 12 300 c5s2 "o1" 12

/-- The canonical processor recorded for the replayed payment id. -/
def c6Entry : DupEntry := ⟨"0xfirst", 50, "sig1"⟩

/-- Tracker already holding payment id `p1`. -/
def c6Tracker : TrackerState := [("p1", c6Entry)]

/-- A fully concrete handler environment: valid signature, registered
listener with default-threshold stake and reputation, payment verification
skipped, strict (non-degraded) mode, well-formed addresses. -/
def c6Env : HandlerEnv :=
  ⟨true, fun _ => Except.ok ⟨10 ^ 16, 30, true, false⟩, defaultThresholds,
    false, true, fun _ => none, fun _ => true,
    fun a b => a ++ "|" ++ b, fun m => "signed:" ++ m, 3600, 1000⟩

/-- A schema-valid claim for payment id `p1`. -/
def c6Claim : WebhookClaim :=
  ⟨"payment.completed", "p1", "0xm", "0xc", "1", 900, 5, "0xtx", 11155111⟩

/-- Address well-formedness oracle accepting exactly `0xgood`. -/
def c7IsAddr : String → Bool := fun s => s == "0xgood"

/-- Concrete stand-in for `solidityPackedKeccak256`. -/
def c7MkMsg : String → String → String := fun a b => a ++ "|" ++ b

/-- Concrete stand-in for `wallet.signMessage`. -/
def c7Sign : String → String := fun m => "signed:" ++ m

/-- An exception carrying an internal connection string and a stack. -/
def c8Err : JsError :=
  ⟨some "connect ECONNREFUSED 127.0.0.1:5432", some "Error: stack frames"⟩

/-- Handler environment whose `ethers.isAddress` rejects every string, so
proof generation always throws, while every verification step passes. -/
def c10Env : HandlerEnv :=
  ⟨true, fun _ => Except.ok ⟨10 ^ 16, 30, true, false⟩, defaultThresholds,
    false, true, fun _ => none, fun _ => false,
    fun a b => a ++ "|" ++ b, fun m => "signed:" ++ m, 3600, 1000⟩

/-! ## Claim theorems -/

/-- Unfolding of one loop iteration of `retryWithBackoff`. -/
theorem retryLoop_succ {α : Type} (fn : Nat → Except RpcError α) (attempt n : Nat) :
    retryLoop fn attempt (n + 1) =
      match fn attempt with
      | Except.ok v => ⟨Except.ok v, attempt, []⟩
      | Except.error e =>
        if 0 < n && isTimeoutError e then
          let rest := retryLoop fn (attempt + 1) n
          ⟨rest.result, rest.attemptsMade, backoffDelay attempt :: rest.delays⟩
        else ⟨Except.error e, attempt, []⟩ := rfl

/-- Claim C1 (corrected from): with the payment-verification-skip toggle off,
`verifyPaymentOnChain` would return `isValid = true` iff the ledger holds a
matching record. Refuted: at a ledger holding a matching completed record for
the claimed payment, the toggle-off result is still `isValid = false` — the
on-chain query is disabled in the source. -/
theorem claim_C1_counterexample :
    ¬ (((verifyPaymentOnChain false c1Ledger "p1" "0xm" "0xc" "1").isValid = true) ↔
      (c1Ledger "p1").isSome = true) := by decide

/-- Claim C1, amended: with the toggle off `verifyPaymentOnChain` returns
`isValid = false` with a fixed reason and never consults the ledger (the
result is ledger-independent); with the toggle on it trivially accepts; the
`SKIP_PAYMENT_VERIFICATION` bypass is off in the default environment. -/
theorem claim_C1 (ledgerA ledgerB : String → Option PaymentRecord)
    (paymentId merchant customer amount : String) :
    (verifyPaymentOnChain false ledgerA paymentId merchant customer amount).isValid = false
    ∧ verifyPaymentOnChain false ledgerA paymentId merchant customer amount =
        verifyPaymentOnChain false ledgerB paymentId merchant customer amount
    ∧ (verifyPaymentOnChain true ledgerA paymentId merchant customer amount).isValid = true
    ∧ envFlag emptyEnv "SKIP_PAYMENT_VERIFICATION" = false :=
  ⟨rfl, rfl, rfl, rfl⟩

/-- Claim C8 (corrected from): the catch-all 500 response withholds internal
details, exposing neither the exception's message nor its stack. Refuted: at
a concrete exception carrying an internal connection string, the 500 body's
`message` field equals the exception's message verbatim. -/
theorem claim_C8_counterexample :
    (webhookCatchResponse c8Err).statusCode = 500
    ∧ (webhookCatchResponse c8Err).message = c8Err.message
    ∧ c8Err.message = some "connect ECONNREFUSED 127.0.0.1:5432" := by decide

/-- Claim C8, amended: any exception is surfaced as a 500 response with a
generic `error` field; the body never includes the stack (the response is
independent of it), but it does expose the exception's message (or
`Unknown error` when absent). -/
theorem claim_C8 (e : JsError) :
    (webhookCatchResponse e).statusCode = 500
    ∧ (webhookCatchResponse e).error = some "Internal server error"
    ∧ (webhookCatchResponse e).message = some (e.message.getD "Unknown error")
    ∧ (∀ st : Option String, webhookCatchResponse ⟨e.message, st⟩ = webhookCatchResponse e) :=
  ⟨rfl, rfl, rfl, fun _ => rfl⟩

/-- Every sleep the retry loop takes is the backoff of the attempt that just
failed: the k-th recorded delay, taken before attempt `attempt + k + 1`, is
`backoffDelay (attempt + k)`. -/
theorem retryLoop_delays {α : Type} (fn : Nat → Except RpcError α) :
    ∀ (remaining attempt k d : Nat),
      (retryLoop fn attempt remaining).delays[k]? = some d →
      d = backoffDelay (attempt + k) := by
  intro remaining
  induction remaining with
  | zero =>
    intro attempt k d h
    simp [retryLoop] at h
  | succ n ih =>
    intro attempt k d h
    rw [retryLoop_succ] at h
    cases hfa : fn attempt with
    | ok v =>
      rw [hfa] at h
      simp at h
    | error e =>
      rw [hfa] at h
      by_cases hc : (0 < n && isTimeoutError e) = true
      · simp only [hc, if_true] at h
        cases k with
        | zero =>
          simp at h
          rw [← h]
          simp
        | succ m =>
          simp at h
          have hm := ih (attempt + 1) m d h
          rw [hm]
          congr 1
          omega
      · simp [hc] at h

/-- The retry loop executes at most `attempt + remaining - 1` attempts when
entered at attempt number `attempt` with `remaining` attempts allowed. -/
theorem retryLoop_attempts_le {α : Type} (fn : Nat → Except RpcError α) :
    ∀ remaining attempt,
      (retryLoop fn attempt remaining).attemptsMade ≤ attempt + remaining - 1 := by
  intro remaining
  induction remaining with
  | zero =>
    intro attempt
    simp [retryLoop]
  | succ n ih =>
    intro attempt
    rw [retryLoop_succ]
    cases hfa : fn attempt with
    | ok v =>
      simp
    | error e =>
      by_cases hc : (0 < n && isTimeoutError e) = true
      · simp only [hc, if_true]
        have := ih (attempt + 1)
        simp
        omega
      · simp [hc]

/-- A first-attempt failure that is not classified transient propagates at
once: one attempt, no sleep. -/
theorem retryWithBackoff_nontransient {α : Type} (fn : Nat → Except RpcError α)
    (e : RpcError) (h1 : fn 1 = Except.error e) (he : isTimeoutError e = false) :
    retryWithBackoff fn 3 = ⟨Except.error e, 1, []⟩ := by
  rw [retryWithBackoff, show (3 : Nat) = 2 + 1 from rfl, retryLoop_succ, h1]
  simp [he]

/-- Two transient failures followed by a success return the success value
after sleeps of 1000 ms and 2000 ms. -/
theorem retryWithBackoff_two_then_ok {α : Type} (fn : Nat → Except RpcError α)
    (e₁ e₂ : RpcError) (v : α)
    (h1 : fn 1 = Except.error e₁) (h2 : fn 2 = Except.error e₂)
    (h3 : fn 3 = Except.ok v)
    (t1 : isTimeoutError e₁ = true) (t2 : isTimeoutError e₂ = true) :
    retryWithBackoff fn 3 = ⟨Except.ok v, 3, [1000, 2000]⟩ := by
  have u3 : retryLoop fn 3 1 = ⟨Except.ok v, 3, []⟩ := by
    rw [show (1 : Nat) = 0 + 1 from rfl, retryLoop_succ, h3]
  have u2 : retryLoop fn 2 2 =
      ⟨(retryLoop fn 3 1).result, (retryLoop fn 3 1).attemptsMade,
        2000 :: (retryLoop fn 3 1).delays⟩ := by
    rw [show (2 : Nat) = 1 + 1 from rfl, retryLoop_succ, h2]
    norm_num [t2, backoffDelay]
  have u1 : retryLoop fn 1 3 =
      ⟨(retryLoop fn 2 2).result, (retryLoop fn 2 2).attemptsMade,
        1000 :: (retryLoop fn 2 2).delays⟩ := by
    rw [show (3 : Nat) = 2 + 1 from rfl, retryLoop_succ, h1]
    norm_num [t1, backoffDelay]
  rw [retryWithBackoff, u1, u2, u3]

/-- Three transient failures propagate the third (last) error after sleeps
of 1000 ms and 2000 ms. -/
theorem retryWithBackoff_three_fail {α : Type} (fn : Nat → Except RpcError α)
    (e₁ e₂ e₃ : RpcError)
    (h1 : fn 1 = Except.error e₁) (h2 : fn 2 = Except.error e₂)
    (h3 : fn 3 = Except.error e₃)
    (t1 : isTimeoutError e₁ = true) (t2 : isTimeoutError e₂ = true)
    (t3 : isTimeoutError e₃ = true) :
    retryWithBackoff fn 3 = ⟨Except.error e₃, 3, [1000, 2000]⟩ := by
  have u3 : retryLoop fn 3 1 = ⟨Except.error e₃, 3, []⟩ := by
    rw [show (1 : Nat) = 0 + 1 from rfl, retryLoop_succ, h3]
    simp [t3]
  have u2 : retryLoop fn 2 2 =
      ⟨(retryLoop fn 3 1).result, (retryLoop fn 3 1).attemptsMade,
        2000 :: (retryLoop fn 3 1).delays⟩ := by
    rw [show (2 : Nat) = 1 + 1 from rfl, retryLoop_succ, h2]
    norm_num [t2, backoffDelay]
  have u1 : retryLoop fn 1 3 =
      ⟨(retryLoop fn 2 2).result, (retryLoop fn 2 2).attemptsMade,
        1000 :: (retryLoop fn 2 2).delays⟩ := by
    rw [show (3 : Nat) = 2 + 1 from rfl, retryLoop_succ, h1]
    norm_num [t1, backoffDelay]
  rw [retryWithBackoff, u1, u2, u3]

/-- Claim C2 (corrected from): the delay before attempt k (k ≥ 2) is
`min(1000ms · 2^(k-1), 5000ms)`. Refuted: for attempts that keep failing
transiently, the sleep before attempt 2 is 1000 ms, not the claimed
`min(1000 · 2^(2-1), 5000) = 2000` ms. -/
theorem claim_C2_counterexample :
    (retryWithBackoff c2FailFn 3).delays[0]? = some 1000
    ∧ ¬ ((retryWithBackoff c2FailFn 3).delays[0]? =
      some (min (1000 * 2 ^ (2 - 1)) 5000)) := by decide

/-- Claim C2, amended: through the retrying client at most 3 attempts are
made; the delay before attempt k (k ≥ 2, recorded at index k-2) is
`min(1000ms · 2^(k-2), 5000ms)`; a non-transient first failure propagates
immediately with one attempt and no delay; two transient failures then a
success return the success result; three transient failures propagate the
last error. -/
theorem claim_C2 :
    (∀ fn : Nat → Except RpcError Nat, (retryWithBackoff fn 3).attemptsMade ≤ 3)
    ∧ (∀ (fn : Nat → Except RpcError Nat) (k d : Nat),
        (retryWithBackoff fn 3).delays[k]? = some d →
        d = min (1000 * 2 ^ k) 5000)
    ∧ (∀ (fn : Nat → Except RpcError Nat) (e : RpcError),
        fn 1 = Except.error e → isTimeoutError e = false →
        retryWithBackoff fn 3 = ⟨Except.error e, 1, []⟩)
    ∧ (∀ (fn : Nat → Except RpcError Nat) (e₁ e₂ : RpcError) (v : Nat),
        fn 1 = Except.error e₁ → fn 2 = Except.error e₂ → fn 3 = Except.ok v →
        isTimeoutError e₁ = true → isTimeoutError e₂ = true →
        retryWithBackoff fn 3 = ⟨Except.ok v, 3, [1000, 2000]⟩)
    ∧ (∀ (fn : Nat → Except RpcError Nat) (e₁ e₂ e₃ : RpcError),
        fn 1 = Except.error e₁ → fn 2 = Except.error e₂ → fn 3 = Except.error e₃ →
        isTimeoutError e₁ = true → isTimeoutError e₂ = true → isTimeoutError e₃ = true →
        (retryWithBackoff fn 3).result = Except.error e₃) := by
  refine ⟨?_, ?_, ?_, ?_, ?_⟩
  · intro fn
    have := retryLoop_attempts_le fn 3 1
    simpa [retryWithBackoff] using this
  · intro fn k d h
    have hd := retryLoop_delays fn 3 1 k d h
    rw [hd, backoffDelay, show 1 + k - 1 = k from by omega]
  · intro fn e h1 he
    exact retryWithBackoff_nontransient fn e h1 he
  · intro fn e₁ e₂ v h1 h2 h3 t1 t2
    exact retryWithBackoff_two_then_ok fn e₁ e₂ v h1 h2 h3 t1 t2
  · intro fn e₁ e₂ e₃ h1 h2 h3 t1 t2 t3
    rw [retryWithBackoff_three_fail fn e₁ e₂ e₃ h1 h2 h3 t1 t2 t3]

/-- Witness for C2: the amended retry policy evaluated on concrete attempt
sequences (always-transient, non-transient, and fail-fail-succeed). -/
theorem claim_C2_witness :
    (retryWithBackoff c2FailFn 3).attemptsMade ≤ 3
    ∧ retryWithBackoff c2NonTransientFn 3 =
        ⟨Except.error ⟨some "CALL_EXCEPTION", some "execution reverted"⟩, 1, []⟩
    ∧ retryWithBackoff c2ThirdOkFn 3 = ⟨Except.ok 42, 3, [1000, 2000]⟩
    ∧ (retryWithBackoff c2FailFn 3).result =
        Except.error ⟨some "TIMEOUT", some "attempt 3"⟩
    ∧ (1000 : Nat) = min (1000 * 2 ^ 0) 5000 :=
  ⟨claim_C2.1 c2FailFn,
   claim_C2.2.2.1 c2NonTransientFn _ rfl (by decide),
   claim_C2.2.2.2.1 c2ThirdOkFn ⟨some "ETIMEDOUT", none⟩ ⟨some "ETIMEDOUT", none⟩ 42
     rfl rfl rfl (by decide) (by decide),
   claim_C2.2.2.2.2 c2FailFn ⟨some "TIMEOUT", some "attempt 1"⟩
     ⟨some "TIMEOUT", some "attempt 2"⟩ ⟨some "TIMEOUT", some "attempt 3"⟩
     rfl rfl rfl (by decide) (by decide) (by decide),
   claim_C2.2.1 c2FailFn 0 1000 (by decide)⟩

/-- Claim C3: with the registry query succeeding, `verifyListenerRegistered`
rejects with `isValid = false` and a diagnosable reason, testing in priority
order: not active; slashed; stake below the configured minimum; reputation
below the configured minimum; and it returns `isValid = true` when all four
checks pass. -/
theorem claim_C3 (th : VerificationThresholds) (allow : Bool) (addr : String)
    (r : ListenerRecord) :
    (r.active = false →
      verifyListenerRegistered th allow addr (fun _ => Except.ok r) =
        ⟨false, some "Listener is not active", none⟩)
    ∧ (r.active = true → r.slashed = true →
        verifyListenerRegistered th allow addr (fun _ => Except.ok r) =
          ⟨false, some "Listener has been slashed (banned)", none⟩)
    ∧ (r.active = true → r.slashed = false → r.stake < th.minListenerStakeWei →
        verifyListenerRegistered th allow addr (fun _ => Except.ok r) =
          ⟨false, some ("Listener stake too low: " ++ toString r.stake ++
            " wei (minimum: " ++ toString th.minListenerStakeWei ++ " wei)"), none⟩)
    ∧ (r.active = true → r.slashed = false → th.minListenerStakeWei ≤ r.stake →
        r.reputation < th.minListenerReputation →
        verifyListenerRegistered th allow addr (fun _ => Except.ok r) =
          ⟨false, some ("Listener reputation too low: " ++ toString r.reputation ++
            " (minimum: " ++ toString th.minListenerReputation ++ ")"), none⟩)
    ∧ (r.active = true → r.slashed = false → th.minListenerStakeWei ≤ r.stake →
        th.minListenerReputation ≤ r.reputation →
        verifyListenerRegistered th allow addr (fun _ => Except.ok r) =
          ⟨true, none, some ⟨addr, false⟩⟩) := by
  refine ⟨?_, ?_, ?_, ?_, ?_⟩
  · intro h1
    simp [verifyListenerRegistered, retryWithBackoff, retryLoop, h1]
  · intro h1 h2
    simp [verifyListenerRegistered, retryWithBackoff, retryLoop, h1, h2]
  · intro h1 h2 h3
    simp [verifyListenerRegistered, retryWithBackoff, retryLoop, h1, h2, h3]
  · intro h1 h2 h3 h4
    simp [verifyListenerRegistered, retryWithBackoff, retryLoop, h1, h2,
      Nat.not_lt.mpr h3, h4]
  · intro h1 h2 h3 h4
    simp [verifyListenerRegistered, retryWithBackoff, retryLoop, h1, h2,
      Nat.not_lt.mpr h3, Nat.not_lt.mpr h4]

/-- Witness for C3: the five registry verdicts at the default thresholds on
concrete listener records. -/
theorem claim_C3_witness :
    verifyListenerRegistered defaultThresholds false "0xa"
        (fun _ => Except.ok ⟨10 ^ 16, 30, false, false⟩) =
      ⟨false, some "Listener is not active", none⟩
    ∧ verifyListenerRegistered defaultThresholds false "0xa"
        (fun _ => Except.ok ⟨10 ^ 16, 30, true, true⟩) =
      ⟨false, some "Listener has been slashed (banned)", none⟩
    ∧ verifyListenerRegistered defaultThresholds false "0xa"
        (fun _ => Except.ok ⟨10 ^ 15, 30, true, false⟩) =
      ⟨false, some ("Listener stake too low: " ++ toString (10 ^ 15 : Nat) ++
        " wei (minimum: " ++ toString (10 ^ 16 : Nat) ++ " wei)"), none⟩
    ∧ verifyListenerRegistered defaultThresholds false "0xa"
        (fun _ => Except.ok ⟨10 ^ 16, 29, true, false⟩) =
      ⟨false, some ("Listener reputation too low: " ++ toString (29 : Nat) ++
        " (minimum: " ++ toString (30 : Nat) ++ ")"), none⟩
    ∧ verifyListenerRegistered defaultThresholds false "0xa"
        (fun _ => Except.ok ⟨10 ^ 16, 30, true, false⟩) =
      ⟨true, none, some ⟨"0xa", false⟩⟩ :=
  ⟨(claim_C3 defaultThresholds false "0xa" ⟨10 ^ 16, 30, false, false⟩).1 rfl,
   (claim_C3 defaultThresholds false "0xa" ⟨10 ^ 16, 30, true, true⟩).2.1 rfl rfl,
   (claim_C3 defaultThresholds false "0xa" ⟨10 ^ 15, 30, true, false⟩).2.2.1 rfl rfl
     (by norm_num [defaultThresholds]),
   (claim_C3 defaultThresholds false "0xa" ⟨10 ^ 16, 29, true, false⟩).2.2.2.1 rfl rfl
     (by norm_num [defaultThresholds]) (by norm_num [defaultThresholds]),
   (claim_C3 defaultThresholds false "0xa" ⟨10 ^ 16, 30, true, false⟩).2.2.2.2 rfl rfl
     (by norm_num [defaultThresholds]) (by norm_num [defaultThresholds])⟩

/-- Claim C4: when the registry query has exhausted its retries with an
error, the check fails closed (`isValid = false`) in strict mode, and fails
open flagged `degraded = true` only when degraded mode is explicitly enabled;
the `ALLOW_DURING_RPC_FAILURE` toggle is off in the default environment. -/
theorem claim_C4 (th : VerificationThresholds) (addr : String)
    (fn : Nat → Except RpcError ListenerRecord) (e : RpcError)
    (h : (retryWithBackoff fn 3).result = Except.error e) :
    (verifyListenerRegistered th false addr fn).isValid = false
    ∧ (verifyListenerRegistered th true addr fn).isValid = true
    ∧ (verifyListenerRegistered th true addr fn).listenerInfo = some ⟨addr, true⟩
    ∧ envFlag emptyEnv "ALLOW_DURING_RPC_FAILURE" = false := by
  refine ⟨?_, ?_, ?_, rfl⟩ <;>
    · simp only [verifyListenerRegistered, h]
      simp

/-- Witness for C4: a registry query failing non-transiently on the first
attempt, checked in both strict and degraded modes. -/
theorem claim_C4_witness :
    (verifyListenerRegistered defaultThresholds false "0xa"
      (fun _ => Except.error ⟨some "CALL_EXCEPTION", some "execution reverted"⟩)).isValid = false
    ∧ (verifyListenerRegistered defaultThresholds true "0xa"
      (fun _ => Except.error ⟨some "CALL_EXCEPTION", some "execution reverted"⟩)).listenerInfo =
        some ⟨"0xa", true⟩ :=
  ⟨(claim_C4 defaultThresholds "0xa" _ ⟨some "CALL_EXCEPTION", some "execution reverted"⟩
      (by decide)).1,
   (claim_C4 defaultThresholds "0xa" _ ⟨some "CALL_EXCEPTION", some "execution reverted"⟩
      (by decide)).2.2.1⟩

/-- Claim C7: `generateMerchantProof` fails when the listener address is not
well-formed; fails with the stale-timestamp error whenever (other parameters
being valid) `now - timestamp` exceeds the configured expiry window; fails
with the future-timestamp error whenever `timestamp` is more than 60 seconds
(60000 ms) ahead of `now`; and succeeds for `timestamp = now`. -/
theorem claim_C7 (isAddr : String → Bool) (expiry : Nat) (now : Int)
    (mkMsg : String → String → String) (sign : String → String) (p : ProofParams) :
    (p.payment_id ≠ "" → isAddr p.listener_address = false →
      generateMerchantProof isAddr expiry now mkMsg sign p =
        Except.error "Valid listener_address is required")
    ∧ (p.payment_id ≠ "" → p.listener_address ≠ "" → isAddr p.listener_address = true →
        0 < p.timestamp → (expiry : Int) * 1000 < now - p.timestamp →
        generateMerchantProof isAddr expiry now mkMsg sign p =
          Except.error ("Timestamp too old: " ++ toString ((now - p.timestamp) / 1000) ++
            "s (max: " ++ toString expiry ++ "s)"))
    ∧ (p.payment_id ≠ "" → p.listener_address ≠ "" → isAddr p.listener_address = true →
        0 < p.timestamp → now + 60000 < p.timestamp →
        generateMerchantProof isAddr expiry now mkMsg sign p =
          Except.error "Timestamp is in the future")
    ∧ (p.payment_id ≠ "" → p.listener_address ≠ "" → isAddr p.listener_address = true →
        p.timestamp = now → 0 < now →
        generateMerchantProof isAddr expiry now mkMsg sign p =
          Except.ok ⟨mkMsg p.payment_id p.listener_address,
            sign (mkMsg p.payment_id p.listener_address), p.timestamp, "simple"⟩) := by
  refine ⟨?_, ?_, ?_, ?_⟩
  · intro h1 h2
    simp [generateMerchantProof, validateProofParams, h1, h2]
  · intro h1 h2 h3 h4 h5
    have hts : ¬ p.timestamp ≤ 0 := by omega
    simp [generateMerchantProof, validateProofParams, h1, h2, h3, hts, h5]
  · intro h1 h2 h3 h4 h5
    have hts : ¬ p.timestamp ≤ 0 := by omega
    have hstale : ¬ ((expiry : Int) * 1000 < now - p.timestamp) := by
      have : (0 : Int) ≤ (expiry : Int) * 1000 := by positivity
      omega
    simp [generateMerchantProof, validateProofParams, h1, h2, h3, hts, hstale, h5]
  · intro h1 h2 h3 h4 h5
    have hts : ¬ p.timestamp ≤ 0 := by omega
    have hstale : ¬ ((expiry : Int) * 1000 < now - p.timestamp) := by
      have : (0 : Int) ≤ (expiry : Int) * 1000 := by positivity
      omega
    have hfut : ¬ (now + 60000 < p.timestamp) := by omega
    simp [generateMerchantProof, validateProofParams, h1, h2, h3, hts, hstale, hfut]

/-- Witness for C7: the four proof-generation verdicts at expiry 3600s and
`now = 10 ^ 13` ms, in particular failure at `timestamp = now - 3601 s` and
success at `timestamp = now`. -/
theorem claim_C7_witness :
    generateMerchantProof c7IsAddr 3600 (10 ^ 13) c7MkMsg c7Sign ⟨"p1", "0xbad", 10 ^ 13⟩ =
      Except.error "Valid listener_address is required"
    ∧ generateMerchantProof c7IsAddr 3600 (10 ^ 13) c7MkMsg c7Sign
        ⟨"p1", "0xgood", 10 ^ 13 - 3601000⟩ =
      Except.error ("Timestamp too old: " ++ toString ((3601000 : Int) / 1000) ++
        "s (max: " ++ toString (3600 : Nat) ++ "s)")
    ∧ generateMerchantProof c7IsAddr 3600 (10 ^ 13) c7MkMsg c7Sign
        ⟨"p1", "0xgood", 10 ^ 13 + 60001⟩ =
      Except.error "Timestamp is in the future"
    ∧ generateMerchantProof c7IsAddr 3600 (10 ^ 13) c7MkMsg c7Sign ⟨"p1", "0xgood", 10 ^ 13⟩ =
      Except.ok ⟨c7MkMsg "p1" "0xgood", c7Sign (c7MkMsg "p1" "0xgood"), 10 ^ 13, "simple"⟩ :=
  ⟨(claim_C7 c7IsAddr 3600 (10 ^ 13) c7MkMsg c7Sign ⟨"p1", "0xbad", 10 ^ 13⟩).1
      (by decide) (by decide),
   by
    have h := (claim_C7 c7IsAddr 3600 (10 ^ 13) c7MkMsg c7Sign
        ⟨"p1", "0xgood", 10 ^ 13 - 3601000⟩).2.1
      (by decide) (by decide) (by decide) (by norm_num) (by norm_num)
    simpa using h,
   (claim_C7 c7IsAddr 3600 (10 ^ 13) c7MkMsg c7Sign ⟨"p1", "0xgood", 10 ^ 13 + 60001⟩).2.2.1
      (by decide) (by decide) (by decide) (by norm_num) (by norm_num),
   (claim_C7 c7IsAddr 3600 (10 ^ 13) c7MkMsg c7Sign ⟨"p1", "0xgood", 10 ^ 13⟩).2.2.2
      (by decide) (by decide) (by decide) rfl (by norm_num)⟩

/-- Claim C5: the confirmation-monitor registry holds at most one job per
orderKey and starting a job for a key that already has one is a no-op; on
the first poll reaching the required threshold the job marks the order
confirmed with a timestamp and deregisters itself (below the threshold it
stays registered and leaves `confirmedAt` alone); stopping a stopped or
nonexistent job is a no-op; and the 11, 11, 12 polling scenario against
threshold 12 confirms exactly once, on the third poll, after which the job
is absent and further ticks and stops are no-ops. -/
theorem claim_C5 :
    (∀ (s : MonitorState) (k : String), k ∈ s.jobs → startConfirmationMonitoring s k = s)
    ∧ (∀ (s : MonitorState) (k j : String),
        (startConfirmationMonitoring s k).jobs.val.count j ≤ 1)
    ∧ (∀ (req : Nat) (now : Int) (s : MonitorState) (k : String) (conf : Nat),
        k ∈ s.jobs → req ≤ conf →
        (pollTick req now s k conf).jobs = s.jobs.erase k
        ∧ ((pollTick req now s k conf).orders k).status = "PAYMENT_CONFIRMED"
        ∧ ((pollTick req now s k conf).orders k).confirmedAt = some now
        ∧ k ∉ (pollTick req now s k conf).jobs)
    ∧ (∀ (req : Nat) (now : Int) (s : MonitorState) (k : String) (conf : Nat),
        k ∈ s.jobs → conf < req →
        (pollTick req now s k conf).jobs = s.jobs
        ∧ ((pollTick req now s k conf).orders k).confirmedAt = (s.orders k).confirmedAt)
    ∧ (∀ (s : MonitorState) (k : String), k ∉ s.jobs → stopConfirmationMonitoring s k = s)
    ∧ (∀ (s : MonitorState) (k : String),
        stopConfirmationMonitoring (stopConfirmationMonitoring s k) k =
          stopConfirmationMonitoring s k)
    ∧ (startConfirmationMonitoring c5s0 "o1" = c5s0
        ∧ c5s0.jobs.val.count "o1" = 1
        ∧ (c5s1.orders "o1").confirmedAt = none
        ∧ (c5s2.orders "o1").confirmedAt = none
        ∧ "o1" ∈ c5s2.jobs
        ∧ (c5s3.orders "o1").status = "PAYMENT_CONFIRMED"
        ∧ (c5s3.orders "o1").confirmedAt = some 300
        ∧ "o1" ∉ c5s3.jobs
        ∧ pollTick 12 400 c5s3 "o1" 13 = c5s3
        ∧ stopConfirmationMonitoring c5s3 "o1" = c5s3) := by
  refine ⟨?_, ?_, ?_, ?_, ?_, ?_, ?_⟩
  · intro s k h
    simp [startConfirmationMonitoring, h]
  · intro s k j
    exact Multiset.nodup_iff_count_le_one.mp (startConfirmationMonitoring s k).jobs.nodup j
  · intro req now s k conf hmem hreq
    refine ⟨?_, ?_, ?_, ?_⟩ <;>
      simp [pollTick, stopConfirmationMonitoring, hmem, hreq, Finset.not_mem_erase]
  · intro req now s k conf hmem hlt
    have hnle : ¬ req ≤ conf := by omega
    exact ⟨by simp [pollTick, hmem, hnle], by simp [pollTick, hmem, hnle]⟩
  · intro s k h
    simp [stopConfirmationMonitoring, h]
  · intro s k
    by_cases h : k ∈ s.jobs
    · simp [stopConfirmationMonitoring, h, Finset.not_mem_erase]
    · simp [stopConfirmationMonitoring, h]
  · have hs0 : "o1" ∈ c5s0.jobs := by decide
    have hs3 : "o1" ∉ c5s3.jobs := by decide
    refine ⟨by simp [startConfirmationMonitoring, hs0], by decide, by decide, by decide,
      by decide, by decide, by decide, hs3, by simp [pollTick, hs3],
      by simp [stopConfirmationMonitoring, hs3]⟩

/-- Witness for C5: the monitor operations applied at the concrete scenario
states with every hypothesis discharged by evaluation. -/
theorem claim_C5_witness :
    startConfirmationMonitoring c5s2 "o1" = c5s2
    ∧ (pollTick 12 300 c5s2 "o1" 12).jobs = c5s2.jobs.erase "o1"
    ∧ (pollTick 12 100 c5s0 "o1" 11).jobs = c5s0.jobs
    ∧ stopConfirmationMonitoring c5Init "o1" = c5Init :=
  ⟨claim_C5.1 c5s2 "o1" (by decide),
   (claim_C5.2.2.1 12 300 c5s2 "o1" 12 (by decide) (by decide)).1,
   (claim_C5.2.2.2.1 12 100 c5s0 "o1" 11 (by decide) (by decide)).1,
   claim_C5.2.2.2.2.1 c5Init "o1" (by decide)⟩

/-- Claim C6: a webhook claim whose paymentId the duplicate tracker already
holds is answered `already_processed` with a null proof, no top-level
signature, and the original processor's identity, and the handler run leaves
the tracker exactly as it was. -/
theorem claim_C6 (env : HandlerEnv) (claim : WebhookClaim)
    (lsig laddr : Option String) (tracker : TrackerState) (entry : DupEntry)
    (h : getProcessingListener tracker claim.payment_id = some entry) :
    handleWebhook env claim lsig laddr tracker =
      ⟨⟨200, some "already_processed", none, some "This payment was already handled",
        some entry.listener, none, none⟩, tracker⟩ := by
  have hp : tracker.lookup claim.payment_id = some entry := h
  simp [handleWebhook, isWebhookProcessed, getProcessingListener, hp]

/-- Witness for C6: the replayed claim `p1` against a tracker whose canonical
processor is `0xfirst`. -/
theorem claim_C6_witness :
    handleWebhook c6Env c6Claim (some "0xsig") (some "0xfirst") c6Tracker =
      ⟨⟨200, some "already_processed", none, some "This payment was already handled",
        some c6Entry.listener, none, none⟩, c6Tracker⟩ :=
  claim_C6 c6Env c6Claim (some "0xsig") (some "0xfirst") c6Tracker c6Entry (by decide)

/-- Claim C9: a claim that passes all checks but carries no listener-address
header is answered `success` with a null proof and null signature, the
tracker is left unchanged (markWebhookProcessed is never reached), and the
identical claim resubmitted against the resulting tracker is fully
re-processed (`success` again, not `already_processed`). -/
theorem claim_C9 (env : HandlerEnv) (claim : WebhookClaim) (lsig : Option String)
    (tracker : TrackerState)
    (hdup : isWebhookProcessed tracker claim.payment_id = false)
    (hskip : env.skipPaymentVerification = true) :
    (handleWebhook env claim lsig none tracker).response.status = some "success"
    ∧ (handleWebhook env claim lsig none tracker).response.proof = none
    ∧ (handleWebhook env claim lsig none tracker).response.signature = none
    ∧ (handleWebhook env claim lsig none tracker).tracker = tracker
    ∧ (handleWebhook env claim lsig none
        (handleWebhook env claim lsig none tracker).tracker).response.status =
        some "success" := by
  refine ⟨?_, ?_, ?_, ?_, ?_⟩ <;>
    simp [handleWebhook, hdup, optTruthy, webhookPaymentStep, verifyPaymentOnChain,
      hskip, webhookProofStep]

/-- Witness for C9: the concrete claim `p1` with no `x-node-address` header
against an empty tracker in the skip-verification environment. -/
theorem claim_C9_witness :
    (handleWebhook c6Env c6Claim (some "0xsig") none []).response.status = some "success"
    ∧ (handleWebhook c6Env c6Claim (some "0xsig") none []).response.proof = none
    ∧ (handleWebhook c6Env c6Claim (some "0xsig") none []).tracker = [] :=
  ⟨(claim_C9 c6Env c6Claim (some "0xsig") [] (by decide) (by decide)).1,
   (claim_C9 c6Env c6Claim (some "0xsig") [] (by decide) (by decide)).2.1,
   (claim_C9 c6Env c6Claim (some "0xsig") [] (by decide) (by decide)).2.2.2.1⟩

/-- Claim C10: when every verification step passes for a fresh claim with a
listener address but proof generation throws, the handler still marks the
paymentId processed — recording an empty-string signature — and answers
`success` with a null proof; the paymentId is then claimed, and the same
claim resubmitted is answered `already_processed` although no proof was ever
issued. -/
theorem claim_C10 (env : HandlerEnv) (claim : WebhookClaim) (lsig : Option String)
    (tracker : TrackerState) (a err : String)
    (hdup : isWebhookProcessed tracker claim.payment_id = false)
    (ha : a ≠ "")
    (hsig : optTruthy lsig = false ∨ env.sigValid = true)
    (hreg : (verifyListenerRegistered env.thresholds env.allowDuringRpcFailure
      a env.regFn).isValid = true)
    (hskip : env.skipPaymentVerification = true)
    (hproof : generateMerchantProof env.isAddress env.proofExpirySeconds env.now
      env.mkMsg env.sign ⟨claim.payment_id, a, env.now⟩ = Except.error err) :
    handleWebhook env claim lsig (some a) tracker =
      ⟨⟨200, some "success", none, some "Payment processed successfully", none, none, none⟩,
        markWebhookProcessed tracker claim.payment_id a "" env.now⟩
    ∧ isWebhookProcessed (markWebhookProcessed tracker claim.payment_id a "" env.now)
        claim.payment_id = true
    ∧ (handleWebhook env claim lsig (some a)
        (markWebhookProcessed tracker claim.payment_id a "" env.now)).response.status =
        some "already_processed" := by
  refine ⟨?_, ?_, ?_⟩
  · have hs2 : lsig.getD "" = "" ∨ env.sigValid = true := by
      rcases hsig with hs | hs
      · exact Or.inl (by simpa [optTruthy] using hs)
      · exact Or.inr hs
    rcases hs2 with hs | hs <;>
      simp [handleWebhook, hdup, optTruthy, ha, hs, hreg, webhookPaymentStep,
        verifyPaymentOnChain, hskip, webhookProofStep, hproof, markWebhookProcessed,
        Except.toOption]
  · simp [isWebhookProcessed, markWebhookProcessed, List.lookup]
  · simp [handleWebhook, isWebhookProcessed, markWebhookProcessed, List.lookup]

/-- Witness for C10: a fresh claim from listener `0xlst` in an environment
whose address validator rejects everything, so proof generation throws while
all verification steps pass. -/
theorem claim_C10_witness :
    handleWebhook c10Env c6Claim (some "0xsig") (some "0xlst") [] =
      ⟨⟨200, some "success", none, some "Payment processed successfully", none, none, none⟩,
        markWebhookProcessed [] c6Claim.payment_id "0xlst" "" c10Env.now⟩
    ∧ (handleWebhook c10Env c6Claim (some "0xsig") (some "0xlst")
        (markWebhookProcessed [] c6Claim.payment_id "0xlst" "" c10Env.now)).response.status =
        some "already_processed" :=
  ⟨(claim_C10 c10Env c6Claim (some "0xsig") [] "0xlst" "Valid listener_address is required"
      (by decide) (by decide) (Or.inr rfl) (by decide) rfl (by decide)).1,
   (claim_C10 c10Env c6Claim (some "0xsig") [] "0xlst" "Valid listener_address is required"
      (by decide) (by decide) (Or.inr rfl) (by decide) rfl (by decide)).2.2⟩

end MerchantBackend
